import Mathlib

/-!
Shallow embedding of `mod_log_rotate.c` (Apache module `mod_log_rotate`).

Conventions of the embedding:
* `apr_time_t` (a 64-bit signed count of microseconds) is modelled as `Int`;
  the quantities involved never approach 2^63 in the claims, and the C code
  performs no overflowing arithmetic in the modelled paths, so no explicit
  wraparound is inserted.  C integer division on signed operands truncates
  toward zero and is modelled with `Int.tdiv`.
* File handles (`apr_file_t *`) are modelled as `Option Nat` (`none` = NULL),
  APR pools as `Nat` identifiers.
* `apr_strftime` / `apr_time_exp_gmt` / `apr_time_exp_lt` are external APR
  primitives; they are abstracted as parameters (`StrfEnv.expand`, the
  wrapper `apr_time_exp_gmt`, the local-offset oracle `gmtoff`).  The buffer
  discipline around `apr_strftime` (sizing, truncation, the ignored return
  values) IS part of this repository (`ap_pstrftime`) and is modelled
  faithfully.
* The locking protocol of `ap_lock_log` / `ap_unlock_log` /
  `ap_rotated_log_writer` is modelled as a sequential function over the
  `rotated_log` state that records every lock/unlock/pool/file event in a
  trace and reports which lock the calling thread holds on return.  The
  actions of other threads while the calling thread holds no lock (between
  releasing the read lock and acquiring the write lock, the gap the code's
  own double-check comment is about) are represented by an explicit
  interference function applied to the state at that point.  Lock
  acquisition itself is assumed to succeed (APR rwlock operations on a
  healthy lock do not fail); the claims treated here are not about the
  lock-failure early returns.
-/

namespace ModLogRotate

/-- `APR_USEC_PER_SEC`: microseconds per second. -/
def APR_USEC_PER_SEC : Int := 1000000

/-- `INTERVAL_DEFAULT` from mod_log_rotate.c: one day in microseconds. -/
def INTERVAL_DEFAULT : Int := APR_USEC_PER_SEC * 3600 * 24

/-- `INTERVAL_MIN` from mod_log_rotate.c: sixty seconds in microseconds. -/
def INTERVAL_MIN : Int := APR_USEC_PER_SEC * 60

/-- The `rl_enabled` enumeration of mod_log_rotate.c. -/
inductive RlEnabled
  | RL_DISABLED
  | RL_ENABLED
  | RL_SUBSTITUTIONS
deriving DecidableEq, Repr

export RlEnabled (RL_DISABLED RL_ENABLED RL_SUBSTITUTIONS)

/-- The `log_options` structure of mod_log_rotate.c. -/
structure LogOptions where
  enabled : RlEnabled
  interval : Int
  offset : Int
  localt : Bool
deriving DecidableEq, Repr

/-- `ap_get_quantized_time` from mod_log_rotate.c.  `gmtoff` abstracts
`apr_time_exp_lt`'s `tm_gmtoff` field (the signed local-UTC offset in
seconds in effect at the queried instant); it is consulted only when
`localt` is set.  C division of `apr_time_t` truncates toward zero, hence
`Int.tdiv`. -/
def ap_get_quantized_time (st : LogOptions) (gmtoff : Int → Int) (tm : Int) : Int :=
  let localadj : Int := if st.localt then gmtoff tm * APR_USEC_PER_SEC else 0
  ((tm + st.offset + localadj).tdiv st.interval) * st.interval

/-- `set_interval` from mod_log_rotate.c: the `RotateInterval` directive.
The first argument is the interval in seconds, the optional second the
offset in minutes; an interval below `INTERVAL_MIN` is clamped to it. -/
def set_interval (ls : LogOptions) (inte : Option Int) (offs : Option Int) : LogOptions :=
  let ls1 : LogOptions :=
    match inte with
    | some n =>
        let iv := APR_USEC_PER_SEC * n
        ⟨ls.enabled, if iv < INTERVAL_MIN then INTERVAL_MIN else iv, ls.offset, ls.localt⟩
    | none => ls
  match offs with
  | some m => ⟨ls1.enabled, ls1.interval, APR_USEC_PER_SEC * 60 * m, ls1.localt⟩
  | none => ls1

/-- `apr_time_sec` (APR macro): microseconds to seconds by C truncating
division. -/
def apr_time_sec (t : Int) : Int := t.tdiv APR_USEC_PER_SEC

/-- Broken-down time as handed to `apr_strftime`.  `apr_time_exp_gmt`
decomposes a microsecond timestamp losslessly (for the purposes of the
formatter we only need that the decomposition is a function of the
timestamp), so the model carries the timestamp itself. -/
structure TimeExp where
  usec : Int
deriving DecidableEq, Repr

/-- `apr_time_exp_gmt`: UTC broken-down view of a timestamp. -/
def apr_time_exp_gmt (t : Int) : TimeExp := ⟨t⟩

/-- Abstraction of the external `apr_strftime` formatting semantics:
`expand fmt tm` is the full (untruncated) strftime expansion of `fmt` at
`tm`, and `junk` stands for the unspecified buffer contents that C's
`strftime` leaves behind when the expansion does not fit the buffer. -/
structure StrfEnv where
  expand : String → TimeExp → String
  junk : String

/-- Number of pattern markers in a format: the `strchr` loop of
`ap_pstrftime` counts every occurrence of the character `%`. -/
def countPct (s : String) : Nat := s.toList.count '%'

/-- The buffer length computed by `ap_pstrftime`:
`strlen(format) + 1` plus ten bytes per `%` found. -/
def pstrftime_len (format : String) : Nat := format.length + 1 + 10 * countPct format

/-- Model of `apr_strftime buf &got maxSize format tm` (external to this
repository): when the full expansion and its terminating NUL fit in
`maxSize` bytes the buffer receives the expansion and `got` its length;
otherwise nothing meaningful is written (`got = 0`, buffer contents
unspecified, modelled by `junk`). -/
def apr_strftime (se : StrfEnv) (maxSize : Nat) (format : String) (tm : TimeExp) :
    String × Nat :=
  let full := se.expand format tm
  if full.length + 1 ≤ maxSize then (full, full.length) else (se.junk, 0)

/-- `ap_pstrftime` from mod_log_rotate.c: allocates a buffer of
`pstrftime_len format` bytes, calls `apr_strftime` into it and returns the
buffer.  The code discards `got` and performs no check of the outcome:
the model returns the first component only, exactly as the C returns `buf`
unconditionally. -/
def ap_pstrftime (se : StrfEnv) (format : String) (tm : TimeExp) : String :=
  (apr_strftime se (pstrftime_len format) format tm).1

/-- The name-synthesis part of `ap_open_log` from mod_log_rotate.c:
`log_time = tm - offset`; in substitution mode the name is the
`ap_pstrftime` expansion of the base against the UTC decomposition of
`log_time`, otherwise the base with `"." ++ seconds(log_time)` appended
(`apr_psprintf "%s.%" APR_TIME_T_FMT`; `toString` on `Int` renders the
decimal exactly as `%ld` does). -/
def ap_open_log_name (se : StrfEnv) (name : String) (ls : LogOptions) (tm : Int) : String :=
  let log_time := tm - ls.offset
  if ls.enabled = RL_SUBSTITUTIONS then
    ap_pstrftime se name (apr_time_exp_gmt log_time)
  else
    name ++ "." ++ toString (apr_time_sec log_time)

/-- The `rotated_log` structure of mod_log_rotate.c (the lock aliases are
modelled by the thread-held-lock component of the results below; `fd` is
the current log file handle, `pool` the current allocation pool,
`logtime` the quantized time of the current log file). -/
structure RlState where
  pool : Nat
  fd : Option Nat
  fname : String
  st : LogOptions
  logtime : Int
deriving DecidableEq, Repr

/-- Which mode of the reader-writer lock the calling thread holds. -/
inductive Held
  | free
  | rd
  | wr
deriving DecidableEq, Repr

/-- An `apr_status_t` outcome, restricted to the values distinguished by
the modelled paths. -/
inductive Status
  | APR_SUCCESS
  | APR_ENOENT
  | poolErr
  | writeErr
deriving DecidableEq, Repr

export Status (APR_SUCCESS APR_ENOENT)

/-- Observable events of the rotation protocol, in program order. -/
inductive Ev
  | lockR
  | unlockR
  | lockW
  | unlockW
  | poolCreate (p : Nat)
  | openTry (nm : String) (res : Option Nat)
  | closeOld (f : Option Nat) (ok : Bool)
  | poolDestroy (p : Nat)
  | fileWrite (f : Option Nat) (n : Nat) (ok : Bool)
deriving DecidableEq, Repr

/-- External outcomes consumed by one `ap_lock_log` call: the local-time
oracle, the strftime abstraction, the result of `apr_file_open` per path,
whether `apr_file_close` of the retired handle succeeds, whether
`apr_pool_create` succeeds and the identity of the pool it would create. -/
structure Env where
  gmtoff : Int → Int
  strf : StrfEnv
  openRes : String → Option Nat
  closeOk : Bool
  poolCreateOk : Bool
  newPool : Nat

/-- Result of `ap_lock_log`: the returned status, the `rotated_log` state
on return, the lock mode the calling thread holds on return, and the event
trace. -/
structure LockRes where
  rv : Status
  s : RlState
  held : Held
  tr : List Ev
deriving Repr

/-- `ap_lock_log` from mod_log_rotate.c, modelled sequentially.
`interfere` stands for the rotations other threads may perform during the
only span in which the calling thread holds no lock: after releasing the
read lock and before acquiring the write lock (`id` when no other thread
intervenes).  Faithful details: the quantized time is computed once at
entry; on the fast path the function returns `APR_SUCCESS` still holding
the read lock; on the double-check path it unlocks the write lock and then
re-locks the WRITE lock (`APR_ANYLOCK_LOCK(&rl->write_lock)` — exactly as
the C source does, despite its comment) and returns that status;
`rl->logtime` is advanced before the pool creation and open attempt; a
failed open restores the old handle and destroys the new pool; a
successful open closes the old handle, destroys the old pool and installs
the new one; after releasing the write lock a NULL handle yields
`APR_ENOENT`, otherwise the read lock is re-acquired. -/
def ap_lock_log (env : Env) (interfere : RlState → RlState) (s : RlState)
    (request_time : Int) : LockRes :=
  let logt := ap_get_quantized_time s.st env.gmtoff request_time
  if logt = s.logtime ∧ s.fd ≠ none then
    ⟨APR_SUCCESS, s, Held.rd, [Ev.lockR]⟩
  else
    let s1 := interfere s
    if logt = s1.logtime ∧ s1.fd ≠ none then
      ⟨APR_SUCCESS, s1, Held.wr,
        [Ev.lockR, Ev.unlockR, Ev.lockW, Ev.unlockW, Ev.lockW]⟩
    else
      let ofd := s1.fd
      let s2 : RlState := ⟨s1.pool, s1.fd, s1.fname, s1.st, logt⟩
      if ¬ env.poolCreateOk then
        ⟨Status.poolErr, s2, Held.free, [Ev.lockR, Ev.unlockR, Ev.lockW, Ev.unlockW]⟩
      else
        let np := env.newPool
        let nm := ap_open_log_name env.strf s2.fname s2.st logt
        match env.openRes nm with
        | none =>
            let s3 : RlState := ⟨s2.pool, ofd, s2.fname, s2.st, s2.logtime⟩
            let tr3 := [Ev.lockR, Ev.unlockR, Ev.lockW, Ev.poolCreate np,
              Ev.openTry nm none, Ev.poolDestroy np, Ev.unlockW]
            if s3.fd = none then
              ⟨APR_ENOENT, s3, Held.free, tr3⟩
            else
              ⟨APR_SUCCESS, s3, Held.rd, tr3 ++ [Ev.lockR]⟩
        | some f =>
            let s3 : RlState := ⟨np, some f, s2.fname, s2.st, s2.logtime⟩
            ⟨APR_SUCCESS, s3, Held.rd,
              [Ev.lockR, Ev.unlockR, Ev.lockW, Ev.poolCreate np,
               Ev.openTry nm (some f), Ev.closeOld ofd env.closeOk,
               Ev.poolDestroy s1.pool, Ev.unlockW, Ev.lockR]⟩

/-- `ap_unlock_log` from mod_log_rotate.c: unlocks the read alias of the
anylock; on the shared APR rwlock this releases whatever mode the thread
holds. -/
def ap_unlock_log (_h : Held) : Held := Held.free

/-- Result of `ap_rotated_log_writer`. -/
structure WriteRes where
  rv : Status
  s : RlState
  held : Held
  tr : List Ev
deriving Repr

/-- `ap_rotated_log_writer` from mod_log_rotate.c, for a non-NULL handle
argument: the caller's line fragments are already concatenated into one
buffer of length `len` (the `memcpy` loop is byte bookkeeping the trace
records as a single `fileWrite`).  With rotation disabled the buffer is
written directly to the stored handle with no locking.  Otherwise
`ap_lock_log` runs; a non-success status is returned as is; then the
buffer is written to `rl->fd`, and — exactly as in the C — a failing write
returns that status immediately, reaching `ap_unlock_log` only when the
write succeeded.  `writeOk` abstracts the outcome of `apr_file_write`. -/
def ap_rotated_log_writer (env : Env) (interfere : RlState → RlState)
    (s : RlState) (request_time : Int) (len : Nat) (writeOk : Bool) : WriteRes :=
  if s.st.enabled = RL_DISABLED then
    ⟨if writeOk then APR_SUCCESS else Status.writeErr, s, Held.free,
      [Ev.fileWrite s.fd len writeOk]⟩
  else
    let L := ap_lock_log env interfere s request_time
    if L.rv ≠ APR_SUCCESS then
      ⟨L.rv, L.s, L.held, L.tr⟩
    else
      let tr := L.tr ++ [Ev.fileWrite L.s.fd len writeOk]
      if ¬ writeOk then
        ⟨Status.writeErr, L.s, L.held, tr⟩
      else
        ⟨APR_SUCCESS, L.s, ap_unlock_log L.held, tr ++ [Ev.unlockR]⟩

/-! Spec-side definitions, written from the specification's words, for the
refinement comparisons. -/

/-- The adjusted instant of the spec's quantization algorithm:
`now + offset` plus (when `useLocalTime`) the signed local-UTC offset at
`now` (seconds, scaled to microseconds). -/
def adjusted_time (st : LogOptions) (gmtoff : Int → Int) (tm : Int) : Int :=
  tm + st.offset + (if st.localt then gmtoff tm * APR_USEC_PER_SEC else 0)

/-- `computeWindowStart` as the spec states it:
`floor(adjusted / interval) * interval` (mathematical floor division). -/
def computeWindowStart_spec (st : LogOptions) (gmtoff : Int → Int) (tm : Int) : Int :=
  (adjusted_time st gmtoff tm).fdiv st.interval * st.interval

/-- The suffix-mode name as the spec states it:
`base + "." + decimal of floor((windowStart - offset) / 1000000)`. -/
def suffix_name_spec (base : String) (ws offset : Int) : String :=
  base ++ "." ++ toString ((ws - offset).fdiv APR_USEC_PER_SEC)

/-- The substitution-mode name as the spec states it: the full
strftime-style expansion of the base pattern against
`windowStart - offset` expressed in UTC. -/
def subst_name_spec (se : StrfEnv) (base : String) (ws offset : Int) : String :=
  se.expand base (apr_time_exp_gmt (ws - offset))

/-- The formatter contract the spec states for oversize expansions: an
expansion that does not fit the heuristic buffer is a formatting error,
never a silently truncated name. -/
def pstrftime_spec (se : StrfEnv) (format : String) (tm : TimeExp) : Except Unit String :=
  if (se.expand format tm).length + 1 ≤ pstrftime_len format then
    Except.ok (se.expand format tm)
  else
    Except.error ()

/-! Claim C4. -/

/-- C4, counterexample: the claim states that `ap_get_quantized_time`
returns `floor(adjusted / interval) * interval` "including when the
adjusted instant is negative".  The C division of `apr_time_t` truncates
toward zero, so at `tm = -1` with interval 60 s (offset 0, UTC) the code
returns `0` while the claimed floor form gives `-60000000`. -/
theorem C4_counterexample_negative_time :
    ap_get_quantized_time ⟨RL_ENABLED, 60000000, 0, false⟩ (fun _ => 0) (-1) = 0 ∧
    computeWindowStart_spec ⟨RL_ENABLED, 60000000, 0, false⟩ (fun _ => 0) (-1) = -60000000 ∧
    ap_get_quantized_time ⟨RL_ENABLED, 60000000, 0, false⟩ (fun _ => 0) (-1) ≠
      computeWindowStart_spec ⟨RL_ENABLED, 60000000, 0, false⟩ (fun _ => 0) (-1) := by
  refine ⟨by decide, by decide, by decide⟩

/-- C4, amended: `ap_get_quantized_time` returns
`trunc((now + offset + localAdjustment) / interval) * interval` with C
truncation toward zero (`localAdjustment` as claimed); this agrees with
the claimed floor form whenever the adjusted instant is nonnegative (with
a positive interval), and the result is always an exact multiple of the
interval; `set_interval` clamps an interval below 60 s to exactly 60 s and
keeps any interval of at least 60 s unchanged. -/
theorem C4_quantized_time_amended :
    (∀ st : LogOptions, ∀ g : Int → Int, ∀ tm : Int,
      ap_get_quantized_time st g tm
          = (adjusted_time st g tm).tdiv st.interval * st.interval
        ∧ st.interval ∣ ap_get_quantized_time st g tm
        ∧ (0 ≤ adjusted_time st g tm → 0 < st.interval →
            ap_get_quantized_time st g tm = computeWindowStart_spec st g tm))
    ∧ (∀ ls : LogOptions, ∀ n : Int, ∀ offs : Option Int,
        APR_USEC_PER_SEC * n < INTERVAL_MIN →
          (set_interval ls (some n) offs).interval = INTERVAL_MIN)
    ∧ (∀ ls : LogOptions, ∀ n : Int, ∀ offs : Option Int,
        INTERVAL_MIN ≤ APR_USEC_PER_SEC * n →
          (set_interval ls (some n) offs).interval = APR_USEC_PER_SEC * n) := by
  refine ⟨fun st g tm => ⟨rfl, ?_, ?_⟩, ?_, ?_⟩
  · exact dvd_mul_left st.interval ((adjusted_time st g tm).tdiv st.interval)
  · intro ha hb
    show (adjusted_time st g tm).tdiv st.interval * st.interval
        = (adjusted_time st g tm).fdiv st.interval * st.interval
    rw [Int.tdiv_eq_ediv ha hb.le, Int.fdiv_eq_ediv _ hb.le]
  · intro ls n offs h
    cases offs <;> simp [set_interval, if_pos h]
  · intro ls n offs h
    cases offs <;> simp [set_interval, if_neg (not_lt.mpr h)]

/-- C4, witness: at `tm = 120000005` (interval 60 s, offset 0, UTC) the
adjusted instant is nonnegative and the code agrees with the claimed
floor form; an interval of 1 s is clamped to 60 s; an interval of 86400 s
is kept. -/
theorem C4_witness :
    ap_get_quantized_time ⟨RL_ENABLED, 60000000, 0, false⟩ (fun _ => 0) 120000005
        = computeWindowStart_spec ⟨RL_ENABLED, 60000000, 0, false⟩ (fun _ => 0) 120000005
      ∧ (set_interval ⟨RL_ENABLED, 60000000, 0, false⟩ (some 1) none).interval = INTERVAL_MIN
      ∧ (set_interval ⟨RL_ENABLED, 60000000, 0, false⟩ (some 86400) none).interval
          = APR_USEC_PER_SEC * 86400 :=
  ⟨(C4_quantized_time_amended.1 ⟨RL_ENABLED, 60000000, 0, false⟩ (fun _ => 0) 120000005).2.2
      (by decide) (by decide),
   C4_quantized_time_amended.2.1 ⟨RL_ENABLED, 60000000, 0, false⟩ 1 none (by decide),
   C4_quantized_time_amended.2.2 ⟨RL_ENABLED, 60000000, 0, false⟩ 86400 none (by decide)⟩

/-! Claim C7. -/

/-- C7, counterexample: the claim quantifies over every window start and
offset and states the suffix is the decimal of
`floor((windowStart - offset) / 1000000)`.  The code computes
`apr_time_sec(log_time)` with C truncation toward zero: at
`windowStart = 0`, `offset = 1` the code produces `"x.0"` while the
claimed floor form produces `"x.-1"`. -/
theorem C7_counterexample_negative_logtime :
    ap_open_log_name ⟨fun f _ => f, ""⟩ "x" ⟨RL_ENABLED, 60000000, 1, false⟩ 0 = "x.0" ∧
    suffix_name_spec "x" 0 1 = "x.-1" ∧
    ap_open_log_name ⟨fun f _ => f, ""⟩ "x" ⟨RL_ENABLED, 60000000, 1, false⟩ 0 ≠
      suffix_name_spec "x" 0 1 := by
  refine ⟨by decide, by decide, by decide⟩

/-- C7, amended: in suffix mode (any non-substitution mode) the
synthesized name is `base ++ "." ++ decimal of
trunc((windowStart - offset) / 1000000)` with C truncation toward zero;
this coincides with the claimed floor form whenever
`windowStart - offset` is a whole number of seconds (as every quantized
window start and configured offset is) or is nonnegative. -/
theorem C7_suffix_name_amended (se : StrfEnv) (base : String) (ls : LogOptions) (ws : Int)
    (henb : ls.enabled ≠ RL_SUBSTITUTIONS) :
    ap_open_log_name se base ls ws
        = base ++ "." ++ toString ((ws - ls.offset).tdiv APR_USEC_PER_SEC)
      ∧ (APR_USEC_PER_SEC ∣ ws - ls.offset →
          ap_open_log_name se base ls ws = suffix_name_spec base ws ls.offset)
      ∧ (0 ≤ ws - ls.offset →
          ap_open_log_name se base ls ws = suffix_name_spec base ws ls.offset) := by
  have hname : ap_open_log_name se base ls ws
      = base ++ "." ++ toString ((ws - ls.offset).tdiv APR_USEC_PER_SEC) := by
    simp [ap_open_log_name, apr_time_sec, henb]
  refine ⟨hname, ?_, ?_⟩
  · intro hdvd
    rw [hname]
    unfold suffix_name_spec
    rw [Int.tdiv_eq_ediv_of_dvd hdvd, Int.fdiv_eq_ediv_of_dvd hdvd]
  · intro hge
    rw [hname]
    unfold suffix_name_spec
    rw [Int.tdiv_eq_ediv hge (by decide), Int.fdiv_eq_ediv _ (by decide)]

/-- C7, witness: with `windowStart = 120000000` and `offset = 60000000`
(both whole seconds, logtime nonnegative) the code name agrees with the
claimed floor form. -/
theorem C7_witness :
    ap_open_log_name ⟨fun f _ => f, ""⟩ "acc" ⟨RL_ENABLED, 60000000, 60000000, false⟩ 120000000
        = "acc" ++ "." ++ toString ((120000000 - (60000000 : Int)).tdiv APR_USEC_PER_SEC)
      ∧ ap_open_log_name ⟨fun f _ => f, ""⟩ "acc" ⟨RL_ENABLED, 60000000, 60000000, false⟩ 120000000
          = suffix_name_spec "acc" 120000000 60000000 :=
  ⟨(C7_suffix_name_amended ⟨fun f _ => f, ""⟩ "acc" ⟨RL_ENABLED, 60000000, 60000000, false⟩
      120000000 (by decide)).1,
   (C7_suffix_name_amended ⟨fun f _ => f, ""⟩ "acc" ⟨RL_ENABLED, 60000000, 60000000, false⟩
      120000000 (by decide)).2.2 (by decide)⟩

/-! Claim C8. -/

/-- C8: in substitution mode the synthesized name is the strftime-style
expansion of the base pattern against the UTC decomposition of
`windowStart - offset` — the configured offset is subtracted before
formatting, and nothing else is subtracted: the local-time adjustment
that `ap_get_quantized_time` may have folded into `windowStart` is
deliberately left in.  The hypothesis states that the expansion fits the
heuristic buffer of `ap_pstrftime` (the overflow behaviour outside this
regime is the subject of C9). -/
theorem C8_substitution_name (se : StrfEnv) (base : String) (ls : LogOptions) (ws : Int)
    (henb : ls.enabled = RL_SUBSTITUTIONS)
    (hfit : (se.expand base (apr_time_exp_gmt (ws - ls.offset))).length + 1
              ≤ pstrftime_len base) :
    ap_open_log_name se base ls ws = subst_name_spec se base ws ls.offset := by
  simp [ap_open_log_name, henb, ap_pstrftime, apr_strftime, hfit, subst_name_spec]

/-- C8, witness: a concrete expansion semantics whose output fits the
buffer; the code name equals the UTC expansion of
`windowStart - offset`. -/
theorem C8_witness :
    ap_open_log_name ⟨fun _ t => "d" ++ toString t.usec, "?"⟩ "%Y"
        ⟨RL_SUBSTITUTIONS, 60000000, 60000000, false⟩ 120000000
      = subst_name_spec ⟨fun _ t => "d" ++ toString t.usec, "?"⟩ "%Y" 120000000 60000000 :=
  C8_substitution_name ⟨fun _ t => "d" ++ toString t.usec, "?"⟩ "%Y"
    ⟨RL_SUBSTITUTIONS, 60000000, 60000000, false⟩ 120000000 (by decide) (by decide)

/-! Claim C9. -/

/-- C9, counterexample: the sizing half of the claim holds (the buffer
for `"%Y"` is `2 + 1 + 10 = 13` bytes), but the error-reporting half is
false: with an expansion of 20 characters the spec contract demands a
formatting error, while `ap_pstrftime` discards `apr_strftime`'s
`got = 0` outcome and returns the unspecified buffer contents (modelled
as `"JJ"`) as an ordinary name — silent truncation, no error report. -/
theorem C9_counterexample_silent_truncation :
    pstrftime_len "%Y" = 13 ∧
    ("12345678901234567890".length + 1 > pstrftime_len "%Y") ∧
    pstrftime_spec ⟨fun _ _ => "12345678901234567890", "JJ"⟩ "%Y" ⟨0⟩ = Except.error () ∧
    ap_pstrftime ⟨fun _ _ => "12345678901234567890", "JJ"⟩ "%Y" ⟨0⟩ = "JJ" ∧
    ap_pstrftime ⟨fun _ _ => "12345678901234567890", "JJ"⟩ "%Y" ⟨0⟩ ≠
      "12345678901234567890" := by
  refine ⟨by decide, by decide, rfl, by decide, by decide⟩

/-- C9, amended: the expansion buffer is sized as `length(base) + 1` plus
a fixed 10-byte margin per `%` marker, and an expansion that fits this
bound is returned in full; but when the expansion would exceed the bound,
`ap_pstrftime` ignores the formatter's outcome and returns the
unspecified buffer contents unchanged — no formatting error is reported
and the caller receives a silently truncated name. -/
theorem C9_pstrftime_amended (se : StrfEnv) (format : String) (tm : TimeExp) :
    pstrftime_len format = format.length + 1 + 10 * countPct format
      ∧ ((se.expand format tm).length + 1 ≤ pstrftime_len format →
          ap_pstrftime se format tm = se.expand format tm)
      ∧ (pstrftime_len format < (se.expand format tm).length + 1 →
          ap_pstrftime se format tm = se.junk) := by
  refine ⟨rfl, ?_, ?_⟩
  · intro hfit
    simp [ap_pstrftime, apr_strftime, hfit]
  · intro hover
    simp [ap_pstrftime, apr_strftime, not_le.mpr hover]

/-- C9, witness: a fitting expansion is returned in full; an oversize
expansion yields the unchecked buffer contents. -/
theorem C9_witness :
    ap_pstrftime ⟨fun _ _ => "2026", "JJ"⟩ "%Y" ⟨0⟩ = "2026" ∧
    ap_pstrftime ⟨fun _ _ => "12345678901234567890", "JJ"⟩ "%Y" ⟨1⟩ = "JJ" :=
  ⟨(C9_pstrftime_amended ⟨fun _ _ => "2026", "JJ"⟩ "%Y" ⟨0⟩).2.1 (by decide),
   (C9_pstrftime_amended ⟨fun _ _ => "12345678901234567890", "JJ"⟩ "%Y" ⟨1⟩).2.2 (by decide)⟩

/-! Concrete instances used by the closed theorems and witnesses below. -/

/-- A trivial strftime abstraction: the expansion is the format itself. -/
def se_id : StrfEnv := ⟨fun f _ => f, ""⟩

/-- Rotation enabled, 60-second interval, no offset, UTC. -/
def cfg60 : LogOptions := ⟨RL_ENABLED, 60000000, 0, false⟩

/-- Environment in which every open succeeds with handle 7, closes and
pool creation succeed, and the fresh pool is 5. -/
def env_open7 : Env := ⟨fun _ => 0, se_id, fun _ => some 7, true, true, 5⟩

/-- Environment in which every open fails. -/
def env_open_none : Env := ⟨fun _ => 0, se_id, fun _ => none, true, true, 5⟩

/-- A `rotated_log` whose current file is handle 1 in pool 0 for the
window starting at 0. -/
def rl0 : RlState := ⟨0, some 1, "log", cfg60, 0⟩

/-- Interference: while the calling thread waited for the write lock,
another thread rotated to the window starting at 60000000, installing
handle 2. -/
def rotate_by_peer : RlState → RlState := fun s => ⟨s.pool, some 2, s.fname, s.st, 60000000⟩

/-! Claim C1. -/

/-- C1: the claim states that when the double-check under the exclusive
lock finds another thread already rotated, the function releases the
exclusive lock and returns success while holding the shared (read) lock.
The code instead executes `APR_ANYLOCK_UNLOCK(&rl->write_lock)` followed
by `APR_ANYLOCK_LOCK(&rl->write_lock)` — its own comment says "Get the
read lock", but it re-acquires the exclusive WRITE lock.  Evaluated at a
request in the new window with a peer having rotated during the wait: the
call returns `APR_SUCCESS`, the trace ends `unlockW, lockW`, and the
caller is left holding the exclusive lock, not the shared one, so its
write proceeds under exclusive rather than shared access. -/
theorem C1_double_check_reacquires_write_lock :
    (ap_lock_log env_open7 rotate_by_peer rl0 60000001).rv = APR_SUCCESS ∧
    (ap_lock_log env_open7 rotate_by_peer rl0 60000001).tr
        = [Ev.lockR, Ev.unlockR, Ev.lockW, Ev.unlockW, Ev.lockW] ∧
    (ap_lock_log env_open7 rotate_by_peer rl0 60000001).held = Held.wr ∧
    (ap_lock_log env_open7 rotate_by_peer rl0 60000001).held ≠ Held.rd := by
  refine ⟨by decide, by decide, by decide, by decide⟩

/-! Claim C2. -/

/-- C2: the claim states the writer releases the shared lock on every
exit path, including a failed buffer write.  In the code the failed-write
path is `if (rv = apr_file_write(...), APR_SUCCESS != rv) { return rv; }`,
which returns before `ap_unlock_log` is reached.  Evaluated at a
fast-path write whose `apr_file_write` fails: the writer returns the
write error with the shared lock still held and no unlock event in the
trace. -/
theorem C2_write_failure_leaves_lock_held :
    (ap_rotated_log_writer env_open7 id rl0 1 10 false).rv = Status.writeErr ∧
    (ap_rotated_log_writer env_open7 id rl0 1 10 false).held = Held.rd ∧
    Ev.unlockR ∉ (ap_rotated_log_writer env_open7 id rl0 1 10 false).tr ∧
    (ap_rotated_log_writer env_open7 id rl0 1 10 false).tr
        = [Ev.lockR, Ev.fileWrite (some 1) 10 false] := by
  refine ⟨by decide, by decide, by decide, by decide⟩

/-! Claim C3. -/

/-- C3: a rotation whose open fails (with a previous handle present)
keeps the previous handle current, still advances `logtime` to the target
window, and its trace shows exactly one open attempt with the new pool
destroyed again; a subsequent write at any instant quantizing to the same
window takes the fast path: it succeeds against the previous handle and
its trace `[lockR, fileWrite, unlockR]` contains no further open
attempt.  Hypotheses: rotation is enabled, the previous handle is `f0`,
the request rolls into a new window, pool creation succeeds, the open of
the new window's name fails, and the second request quantizes to the same
window; no peer thread intervenes (`id`). -/
theorem C3_failed_open_no_retry_within_window
    (env : Env) (s : RlState) (rt1 rt2 : Int) (f0 : Nat) (len : Nat)
    (henb : s.st.enabled ≠ RL_DISABLED)
    (hfd : s.fd = some f0)
    (hroll : ap_get_quantized_time s.st env.gmtoff rt1 ≠ s.logtime)
    (hpool : env.poolCreateOk = true)
    (hopen : env.openRes (ap_open_log_name env.strf s.fname s.st
              (ap_get_quantized_time s.st env.gmtoff rt1)) = none)
    (hsame : ap_get_quantized_time s.st env.gmtoff rt2
              = ap_get_quantized_time s.st env.gmtoff rt1) :
    (ap_lock_log env id s rt1).rv = APR_SUCCESS
      ∧ (ap_lock_log env id s rt1).s
          = ⟨s.pool, some f0, s.fname, s.st, ap_get_quantized_time s.st env.gmtoff rt1⟩
      ∧ (ap_lock_log env id s rt1).tr
          = [Ev.lockR, Ev.unlockR, Ev.lockW, Ev.poolCreate env.newPool,
             Ev.openTry (ap_open_log_name env.strf s.fname s.st
               (ap_get_quantized_time s.st env.gmtoff rt1)) none,
             Ev.poolDestroy env.newPool, Ev.unlockW, Ev.lockR]
      ∧ (ap_rotated_log_writer env id (ap_lock_log env id s rt1).s rt2 len true).rv
          = APR_SUCCESS
      ∧ (ap_rotated_log_writer env id (ap_lock_log env id s rt1).s rt2 len true).s
          = (ap_lock_log env id s rt1).s
      ∧ (ap_rotated_log_writer env id (ap_lock_log env id s rt1).s rt2 len true).tr
          = [Ev.lockR, Ev.fileWrite (some f0) len true, Ev.unlockR] := by
  have h1 : ap_lock_log env id s rt1
      = ⟨APR_SUCCESS,
         ⟨s.pool, some f0, s.fname, s.st, ap_get_quantized_time s.st env.gmtoff rt1⟩,
         Held.rd,
         [Ev.lockR, Ev.unlockR, Ev.lockW, Ev.poolCreate env.newPool,
          Ev.openTry (ap_open_log_name env.strf s.fname s.st
            (ap_get_quantized_time s.st env.gmtoff rt1)) none,
          Ev.poolDestroy env.newPool, Ev.unlockW, Ev.lockR]⟩ := by
    simp [ap_lock_log, hroll, hfd, hpool, hopen]
  have h2 : ap_rotated_log_writer env id
      (⟨s.pool, some f0, s.fname, s.st,
        ap_get_quantized_time s.st env.gmtoff rt1⟩ : RlState) rt2 len true
      = ⟨APR_SUCCESS,
         ⟨s.pool, some f0, s.fname, s.st, ap_get_quantized_time s.st env.gmtoff rt1⟩,
         Held.free,
         [Ev.lockR, Ev.fileWrite (some f0) len true, Ev.unlockR]⟩ := by
    simp [ap_rotated_log_writer, ap_lock_log, ap_unlock_log, henb, hsame]
  rw [h1]
  exact ⟨rfl, rfl, rfl, by rw [h2], by rw [h2], by rw [h2]⟩

/-- C3, witness: handle 1 is current for the window at 0; the request at
60000001 rolls into the window at 60000000, the open fails, the handle
stays 1 while `logtime` advances; the write at 60000002 (same window)
succeeds against handle 1 without another open attempt. -/
theorem C3_witness :
    (ap_lock_log env_open_none id rl0 60000001).rv = APR_SUCCESS ∧
    (ap_lock_log env_open_none id rl0 60000001).s = ⟨0, some 1, "log", cfg60, 60000000⟩ ∧
    (ap_rotated_log_writer env_open_none id
        (ap_lock_log env_open_none id rl0 60000001).s 60000002 10 true).rv = APR_SUCCESS ∧
    (ap_rotated_log_writer env_open_none id
        (ap_lock_log env_open_none id rl0 60000001).s 60000002 10 true).tr
      = [Ev.lockR, Ev.fileWrite (some 1) 10 true, Ev.unlockR] := by
  have H := C3_failed_open_no_retry_within_window env_open_none rl0 60000001 60000002 1 10
    (by decide) (by decide) (by decide) (by decide) (by decide) (by decide)
  exact ⟨H.1, H.2.1, H.2.2.2.1, H.2.2.2.2.2⟩

/-! Claim C6. -/

/-- C6: during a successful rotation the code first creates a fresh pool
and opens the new window's file in it, installs the new handle, and only
then closes the retired handle and destroys the retired pool — the trace
shows `poolCreate np`, `openTry`, `closeOld`, `poolDestroy oldPool` in
that order, the final state carries the new handle in the new pool, and
the rotation's status and final state are identical whether the close of
the old handle succeeds or fails (the close result is reported in the
trace but otherwise discarded).  The single `pool` field of the state is
the "current" allocation scope at every instant.  Hypotheses: the
previous handle is `f0`, the request rolls into a new window, and the
open of the new window's name yields `f1`; no peer thread intervenes. -/
theorem C6_rotation_release_ordering
    (g : Int → Int) (se : StrfEnv) (op : String → Option Nat)
    (cok : Bool) (np : Nat) (s : RlState) (rt : Int) (f0 f1 : Nat)
    (hfd : s.fd = some f0)
    (hroll : ap_get_quantized_time s.st g rt ≠ s.logtime)
    (hopen : op (ap_open_log_name se s.fname s.st
              (ap_get_quantized_time s.st g rt)) = some f1) :
    (ap_lock_log ⟨g, se, op, cok, true, np⟩ id s rt).rv = APR_SUCCESS
      ∧ (ap_lock_log ⟨g, se, op, cok, true, np⟩ id s rt).held = Held.rd
      ∧ (ap_lock_log ⟨g, se, op, cok, true, np⟩ id s rt).s
          = ⟨np, some f1, s.fname, s.st, ap_get_quantized_time s.st g rt⟩
      ∧ (ap_lock_log ⟨g, se, op, cok, true, np⟩ id s rt).tr
          = [Ev.lockR, Ev.unlockR, Ev.lockW, Ev.poolCreate np,
             Ev.openTry (ap_open_log_name se s.fname s.st
               (ap_get_quantized_time s.st g rt)) (some f1),
             Ev.closeOld (some f0) cok, Ev.poolDestroy s.pool, Ev.unlockW, Ev.lockR]
      ∧ (∀ b : Bool,
          (ap_lock_log ⟨g, se, op, b, true, np⟩ id s rt).s
              = (ap_lock_log ⟨g, se, op, cok, true, np⟩ id s rt).s
            ∧ (ap_lock_log ⟨g, se, op, b, true, np⟩ id s rt).rv
              = (ap_lock_log ⟨g, se, op, cok, true, np⟩ id s rt).rv) := by
  have key : ∀ b : Bool, ap_lock_log ⟨g, se, op, b, true, np⟩ id s rt
      = ⟨APR_SUCCESS,
         ⟨np, some f1, s.fname, s.st, ap_get_quantized_time s.st g rt⟩,
         Held.rd,
         [Ev.lockR, Ev.unlockR, Ev.lockW, Ev.poolCreate np,
          Ev.openTry (ap_open_log_name se s.fname s.st
            (ap_get_quantized_time s.st g rt)) (some f1),
          Ev.closeOld (some f0) b, Ev.poolDestroy s.pool, Ev.unlockW, Ev.lockR]⟩ := by
    intro b
    simp [ap_lock_log, hroll, hfd, hopen]
  rw [key cok]
  refine ⟨rfl, rfl, rfl, rfl, fun b => ?_⟩
  rw [key b]
  exact ⟨rfl, rfl⟩

/-- C6, witness: rotating `rl0` (handle 1, pool 0) at 60000001 in an
environment whose open yields handle 7 in fresh pool 5: the close of
handle 1 is traced after the open, the retired pool 0 is destroyed after
pool 5 was created, and flipping the close outcome changes neither the
final state nor the status. -/
theorem C6_witness :
    (ap_lock_log ⟨fun _ => 0, se_id, fun _ => some 7, true, true, 5⟩ id rl0 60000001).rv
        = APR_SUCCESS
      ∧ (ap_lock_log ⟨fun _ => 0, se_id, fun _ => some 7, true, true, 5⟩ id rl0 60000001).s
          = ⟨5, some 7, "log", cfg60, 60000000⟩
      ∧ (ap_lock_log ⟨fun _ => 0, se_id, fun _ => some 7, true, true, 5⟩ id rl0 60000001).tr
          = [Ev.lockR, Ev.unlockR, Ev.lockW, Ev.poolCreate 5,
             Ev.openTry "log.60" (some 7), Ev.closeOld (some 1) true,
             Ev.poolDestroy 0, Ev.unlockW, Ev.lockR]
      ∧ (ap_lock_log ⟨fun _ => 0, se_id, fun _ => some 7, false, true, 5⟩ id rl0 60000001).s
          = (ap_lock_log ⟨fun _ => 0, se_id, fun _ => some 7, true, true, 5⟩ id rl0 60000001).s := by
  have H := C6_rotation_release_ordering (fun _ => 0) se_id (fun _ => some 7) true 5 rl0
    60000001 1 7 (by decide) (by decide) (by decide)
  exact ⟨H.1, H.2.2.1, H.2.2.2.1, (H.2.2.2.2 false).1⟩

/-! Claim C10. -/

/-- A `rotated_log` with no current file (as after the parent process
closed the handle at initialization) for the window starting at 0. -/
def rl_nofd : RlState := ⟨0, none, "log", cfg60, 0⟩

/-- `ap_lock_log` itself never writes the log buffer: no `fileWrite`
event occurs in its trace. -/
theorem lock_log_no_fileWrite (env : Env) (intf : RlState → RlState) (s : RlState)
    (rt : Int) (f : Option Nat) (n : Nat) (b : Bool) :
    Ev.fileWrite f n b ∉ (ap_lock_log env intf s rt).tr := by
  simp only [ap_lock_log]
  split
  · simp
  · split
    · simp
    · split
      · simp
      · split
        · split <;> simp
        · simp

/-- Every `APR_SUCCESS` return of `ap_lock_log` carries a non-NULL
current handle. -/
theorem lock_log_success_fd (env : Env) (intf : RlState → RlState) (s : RlState) (rt : Int) :
    (ap_lock_log env intf s rt).rv = APR_SUCCESS →
      (ap_lock_log env intf s rt).s.fd ≠ none := by
  simp only [ap_lock_log]
  split
  next h => exact fun _ => h.2
  next _ =>
    split
    next h2 => exact fun _ => h2.2
    next _ =>
      split
      next _ => exact fun hk => Status.noConfusion hk
      next _ =>
        split
        next _ =>
          split
          next _ => exact fun hk => Status.noConfusion hk
          next h3 => exact fun _ => h3
        next f _ => exact fun _ => by simp

/-- With rotation enabled, the writer's trace is the lock trace alone
(on a lock failure), or the lock trace followed by one buffer write to
the locked state's handle, optionally followed by the unlock. -/
theorem writer_tr_shape (env : Env) (intf : RlState → RlState) (s : RlState) (rt : Int)
    (len : Nat) (wOk : Bool) (henb : s.st.enabled ≠ RL_DISABLED) :
    (ap_rotated_log_writer env intf s rt len wOk).tr = (ap_lock_log env intf s rt).tr
    ∨ ((ap_lock_log env intf s rt).rv = APR_SUCCESS
        ∧ ((ap_rotated_log_writer env intf s rt len wOk).tr
              = (ap_lock_log env intf s rt).tr
                ++ [Ev.fileWrite (ap_lock_log env intf s rt).s.fd len wOk]
          ∨ (ap_rotated_log_writer env intf s rt len wOk).tr
              = ((ap_lock_log env intf s rt).tr
                ++ [Ev.fileWrite (ap_lock_log env intf s rt).s.fd len wOk])
                ++ [Ev.unlockR])) := by
  simp only [ap_rotated_log_writer]
  rw [if_neg henb]
  split
  next => exact Or.inl rfl
  next hsucc =>
    refine Or.inr ⟨not_not.mp hsucc, ?_⟩
    split
    next => exact Or.inl rfl
    next => exact Or.inr rfl

/-- C10: (a) whenever `ap_lock_log` returns `APR_SUCCESS` the current
handle is non-NULL; (b) with rotation enabled, every buffer write the log
writer performs targets a non-NULL handle; (c) when a rotation attempt
leaves the handle NULL (no previous handle, pool created, open failed —
also with arbitrary peer interference during the lock wait) `ap_lock_log`
releases the exclusive lock (the trace contains `unlockW`) and returns
`APR_ENOENT`, holding no lock. -/
theorem C10_success_implies_handle :
    (∀ (env : Env) (intf : RlState → RlState) (s : RlState) (rt : Int),
      (ap_lock_log env intf s rt).rv = APR_SUCCESS →
        (ap_lock_log env intf s rt).s.fd ≠ none)
    ∧ (∀ (env : Env) (intf : RlState → RlState) (s : RlState) (rt : Int)
        (len : Nat) (wOk : Bool) (f : Option Nat) (n : Nat) (b : Bool),
        s.st.enabled ≠ RL_DISABLED →
        Ev.fileWrite f n b ∈ (ap_rotated_log_writer env intf s rt len wOk).tr →
        f ≠ none)
    ∧ (∀ (env : Env) (intf : RlState → RlState) (s : RlState) (rt : Int),
        s.fd = none → (intf s).fd = none → env.poolCreateOk = true →
        env.openRes (ap_open_log_name env.strf (intf s).fname (intf s).st
          (ap_get_quantized_time s.st env.gmtoff rt)) = none →
        (ap_lock_log env intf s rt).rv = APR_ENOENT
          ∧ (ap_lock_log env intf s rt).held = Held.free
          ∧ Ev.unlockW ∈ (ap_lock_log env intf s rt).tr) := by
  refine ⟨lock_log_success_fd, ?_, ?_⟩
  · intro env intf s rt len wOk f n b henb hmem
    rcases writer_tr_shape env intf s rt len wOk henb with htr | ⟨hrv, htr | htr⟩ <;>
      rw [htr] at hmem
    · exact absurd hmem (lock_log_no_fileWrite env intf s rt f n b)
    · rcases List.mem_append.mp hmem with hmem | hmem
      · exact absurd hmem (lock_log_no_fileWrite env intf s rt f n b)
      · have hf : f = (ap_lock_log env intf s rt).s.fd := by
          exact ((Ev.fileWrite.injEq _ _ _ _ _ _).mp (List.mem_singleton.mp hmem)).1
        rw [hf]
        exact lock_log_success_fd env intf s rt hrv
    · rcases List.mem_append.mp hmem with hmem | hmem
      · rcases List.mem_append.mp hmem with hmem | hmem
        · exact absurd hmem (lock_log_no_fileWrite env intf s rt f n b)
        · have hf : f = (ap_lock_log env intf s rt).s.fd := by
            exact ((Ev.fileWrite.injEq _ _ _ _ _ _).mp (List.mem_singleton.mp hmem)).1
          rw [hf]
          exact lock_log_success_fd env intf s rt hrv
      · exact absurd (List.mem_singleton.mp hmem) (by simp)
  · intro env intf s rt hfd hfd2 hpool hopen
    simp [ap_lock_log, hfd, hfd2, hpool, hopen]

/-- C10, witness: (a) a double-checked success carries handle 2; (b) the
successful fast-path write targets handle 1; (c) with no previous handle
and a failing open, the call returns `APR_ENOENT` with no lock held. -/
theorem C10_witness :
    (ap_lock_log env_open7 rotate_by_peer rl0 60000001).s.fd ≠ none ∧
    (some 1 : Option Nat) ≠ none ∧
    (ap_lock_log env_open_none id rl_nofd 60000001).rv = APR_ENOENT ∧
    (ap_lock_log env_open_none id rl_nofd 60000001).held = Held.free := by
  refine ⟨C10_success_implies_handle.1 env_open7 rotate_by_peer rl0 60000001 (by decide),
    C10_success_implies_handle.2.1 env_open7 id rl0 1 10 true (some 1) 10 true
      (by decide) (by decide),
    (C10_success_implies_handle.2.2 env_open_none id rl_nofd 60000001
      (by decide) (by decide) (by decide) (by decide)).1,
    (C10_success_implies_handle.2.2 env_open_none id rl_nofd 60000001
      (by decide) (by decide) (by decide) (by decide)).2.1⟩

end ModLogRotate
